import Mathlib

/-!
# Verification of the crypto-price-checker historical-data / technical-analysis core

Shallow embedding of `src/enhanced/historical_data.py`, `src/enhanced/technical_analysis.py`
and the relevant parts of `src/enhanced/utils.py`.

Modelling conventions:
* Python floats are modelled as `PyFloat`: a rational value, NaN, or a signed infinity,
  with numpy/pandas arithmetic semantics (0/0 = NaN, x/0 = ±inf for x ≠ 0, any
  comparison involving NaN is false).  Prices and intermediate rolling sums are exact
  rationals; NaN/inf only ever arise from the explicit divisions in the source.
* The square root used by the Bollinger-band rolling standard deviation is irrational in
  general, so the whole development is parametric in the square-root interpretation
  `sqrtQ : ℚ → ℚ`; no claim here depends on the numeric value of the Bollinger bands.
* `random.uniform` draws are modelled as an oracle stream `Nat → Nat → ℚ`
  (seed → index of the uniform call → returned value) and Python's salted string `hash`
  as an oracle `String → Int`, mirroring how `_generate_mock_data` seeds
  `random.seed(hash(symbol) % 1000)` and then consumes the stream in call order.
* Wall-clock timing (`calculation_time_ms`, rate limiting, actual sleep) is out of the
  embedding; the retry decorator's backoff is modelled by the *schedule* of sleeps it
  would perform.
* Exceptions are `Except PyError`; the network, the local SQLite store and the
  save path are oracles supplied through small environment structures.
-/

/-- One Python float value: a rational, NaN, or a signed infinity. -/
inductive PyFloat where
  | val (q : ℚ)
  | nan
  | inf
  | ninf
deriving DecidableEq, Repr

/-- Python/numpy float addition (only the cases reachable in this code base matter). -/
def PyFloat.add : PyFloat → PyFloat → PyFloat
  | .val a, .val b => .val (a + b)
  | .nan, _ => .nan
  | _, .nan => .nan
  | .inf, .ninf => .nan
  | .ninf, .inf => .nan
  | .inf, _ => .inf
  | _, .inf => .inf
  | .ninf, _ => .ninf
  | _, .ninf => .ninf

/-- Python/numpy float subtraction. -/
def PyFloat.sub : PyFloat → PyFloat → PyFloat
  | .val a, .val b => .val (a - b)
  | .nan, _ => .nan
  | _, .nan => .nan
  | .inf, .inf => .nan
  | .ninf, .ninf => .nan
  | .inf, _ => .inf
  | _, .inf => .ninf
  | .ninf, _ => .ninf
  | _, .ninf => .inf

/-- Python/numpy float multiplication (inf · 0 = NaN, sign rules otherwise). -/
def PyFloat.mul : PyFloat → PyFloat → PyFloat
  | .val a, .val b => .val (a * b)
  | .nan, _ => .nan
  | _, .nan => .nan
  | .inf, .inf => .inf
  | .inf, .ninf => .ninf
  | .ninf, .inf => .ninf
  | .ninf, .ninf => .inf
  | .inf, .val b => if b = 0 then .nan else if 0 < b then .inf else .ninf
  | .val a, .inf => if a = 0 then .nan else if 0 < a then .inf else .ninf
  | .ninf, .val b => if b = 0 then .nan else if 0 < b then .ninf else .inf
  | .val a, .ninf => if a = 0 then .nan else if 0 < a then .ninf else .inf

/-- numpy float division: 0/0 = NaN, x/0 = ±inf for x ≠ 0 (no exception is raised). -/
def PyFloat.div : PyFloat → PyFloat → PyFloat
  | .val a, .val b =>
    if b = 0 then (if a = 0 then .nan else if 0 < a then .inf else .ninf)
    else .val (a / b)
  | .nan, _ => .nan
  | _, .nan => .nan
  | .inf, .inf => .nan
  | .inf, .ninf => .nan
  | .ninf, .inf => .nan
  | .ninf, .ninf => .nan
  | .val _, .inf => .val 0
  | .val _, .ninf => .val 0
  | .inf, .val b => if 0 ≤ b then .inf else .ninf
  | .ninf, .val b => if 0 ≤ b then .ninf else .inf

/-- Python float `>`: any comparison involving NaN is false. -/
def PyFloat.gt : PyFloat → PyFloat → Bool
  | .val a, .val b => decide (b < a)
  | .nan, _ => false
  | _, .nan => false
  | .inf, .inf => false
  | .inf, _ => true
  | _, .inf => false
  | .ninf, _ => false
  | _, .ninf => true

/-- Python float `<`: any comparison involving NaN is false. -/
def PyFloat.lt : PyFloat → PyFloat → Bool
  | .val a, .val b => decide (a < b)
  | .nan, _ => false
  | _, .nan => false
  | .inf, .inf => false
  | .inf, _ => false
  | _, .inf => true
  | .ninf, _ => true
  | _, .ninf => false

/-- `utils.safe_float`: `float(x)` on a value that is already a float is the identity
(NaN and inf pass through; no `ValueError`/`TypeError` is possible), so the default
is never used when the argument is a float. -/
def safe_float (x : PyFloat) : PyFloat := x

/-- The exception taxonomy of `enhanced/utils.py` (plus Python's builtin `ValueError`),
restricted to the constructors this code base raises. -/
inductive PyError where
  | validationError (message : String) (field : String)
  | valueError (message : String)
  | apiError (message : String)
  | databaseError (message : String)
  | historicalDataError (message : String) (symbol : Option String) (source : Option String)
  | technicalAnalysisError (message : String) (symbol : Option String)
deriving DecidableEq, Repr

/-- Whether an exception is a `ValidationError`. -/
def PyError.isValidationError : PyError → Bool
  | .validationError _ _ => true
  | _ => false

/-- Whether a call outcome is a raised `ValidationError`. -/
def isValidationErrorResult {α : Type} : Except PyError α → Bool
  | .error e => e.isValidationError
  | .ok _ => false

/-- One OHLCV candle as the dict produced by the data sources / mock generator
(`timestamp` integer seconds; prices and volume as exact rationals). -/
structure Candle where
  timestamp : Int
  open_price : ℚ
  high_price : ℚ
  low_price : ℚ
  close_price : ℚ
  volume : ℚ
deriving DecidableEq, Repr

/-- `utils.retry_decorator`'s loop, run over a function modelled by its outcome at each
attempt (0-indexed).  Returns the final outcome together with the schedule of back-off
sleeps (`delay * backoff ^ attempt` after each failed non-final attempt), mirroring
`for attempt in range(max_attempts): try ... except ... time.sleep(...)` and the final
`raise last_exception`. -/
def retryRunAux {α : Type} (f : Nat → Except PyError α) (delay backoff : ℚ) :
    Nat → Nat → Except PyError α × List ℚ
  | attempt, 0 => (f attempt, [])
  | attempt, rem + 1 =>
    match f attempt with
    | .ok a => (.ok a, [])
    | .error e =>
      if rem = 0 then (.error e, [])
      else
        let s := delay * backoff ^ attempt
        let r := retryRunAux f delay backoff (attempt + 1) rem
        (r.1, s :: r.2)

/-- `retry_decorator(max_attempts, delay, backoff)` applied to a (synchronous) callable. -/
def retryRun {α : Type} (max_attempts : Nat) (delay backoff : ℚ)
    (f : Nat → Except PyError α) : Except PyError α × List ℚ :=
  retryRunAux f delay backoff 0 max_attempts

/-- Python `str.upper()` (ASCII casing suffices for the symbols in this code base),
written over the character list so that it evaluates definitionally. -/
def pyUpper (s : String) : String := ⟨s.data.map Char.toUpper⟩

/-- `CoinGeckoDataSource.coin_id_map`. -/
def coin_id_map : List (String × String) :=
  [("BTC", "bitcoin"), ("ETH", "ethereum"), ("ADA", "cardano"), ("DOT", "polkadot"),
   ("LINK", "chainlink"), ("LTC", "litecoin"), ("XRP", "ripple"), ("BNB", "binancecoin"),
   ("SOL", "solana"), ("MATIC", "matic-network"), ("AVAX", "avalanche-2"),
   ("DOGE", "dogecoin"), ("SHIB", "shiba-inu"), ("UNI", "uniswap"), ("ATOM", "cosmos")]

/-- `CoinGeckoDataSource.fetch_data`, with the network interaction (everything from the
HTTP request on) supplied as an oracle `net`.  The pre-network checks are faithful:
unknown symbol and non-daily interval raise `HistoricalDataError` before any request. -/
def coinGeckoFetch (net : Except PyError (List Candle)) (symbol interval : String) :
    Except PyError (List Candle) :=
  match coin_id_map.lookup (pyUpper symbol) with
  | none => .error (.historicalDataError ("CoinGecko不支持币种: " ++ symbol)
      (some symbol) (some "CoinGecko"))
  | some _ =>
    if interval ≠ "1d" then
      .error (.historicalDataError ("CoinGecko不支持时间间隔: " ++ interval)
        (some symbol) (some "CoinGecko"))
    else net

/-- `HistoricalDataManager._parse_period`, returning the `timedelta` in seconds;
an unsupported period raises `ValueError` (Python's builtin), modelled as `none`
(the caller `get_data` decides how the exception propagates). -/
def parsePeriodDelta (period : String) : Option Int :=
  if period = "1d" then some 86400
  else if period = "7d" then some (7 * 86400)
  else if period = "30d" then some (30 * 86400)
  else if period = "90d" then some (90 * 86400)
  else none

/-- The `ValueError` message raised by `_parse_period` for an unsupported period. -/
def parsePeriodErrMsg (period : String) : String := "不支持的时间周期: " ++ period

/-- `HistoricalDataManager._interval_to_seconds` (unknown interval defaults to 3600). -/
def intervalToSeconds (interval : String) : Int :=
  if interval = "1m" then 60
  else if interval = "5m" then 300
  else if interval = "15m" then 900
  else if interval = "1h" then 3600
  else if interval = "4h" then 14400
  else if interval = "1d" then 86400
  else if interval = "1w" then 604800
  else 3600

/-- `HistoricalDataManager._is_data_sufficient`: empty data is never sufficient;
otherwise `expected = (end_time - start_time) // interval_seconds` (Python floor
division) and the data is sufficient iff `len(data) >= expected * 0.8`
(an int-vs-float comparison, modelled exactly over ℚ). -/
def isDataSufficient (data : List Candle) (start_time end_time : Int) (interval : String) :
    Bool :=
  if data.isEmpty then false
  else
    let interval_seconds := intervalToSeconds interval
    let expected_points := (end_time - start_time).fdiv interval_seconds
    decide ((data.length : ℚ) ≥ (expected_points : ℚ) * (8 / 10))

/-- Modelled from the spec's words, for comparison with `isDataSufficient` (claim C4):
"computes `expected = (end-start)/intervalSeconds`; returns true iff
`len(series) ≥ 0.8 × expected`" — exact division, no non-emptiness guard. -/
def isSufficientSpec (data : List Candle) (start_time end_time : Int) (interval : String) :
    Bool :=
  decide ((data.length : ℚ) ≥
    (((end_time - start_time : Int) : ℚ) / ((intervalToSeconds interval : Int) : ℚ)) * (8 / 10))

/-- `HistoricalDataManager._fetch_from_apis`: try each source in order; a source
failure is caught and the loop continues; the first non-empty result wins; if every
source fails or returns empty data, return `[]` (not an error).  Each source's outcome
(after its own retry wrapper) is supplied as one list element. -/
def fetchFromApis : List (Except PyError (List Candle)) → List Candle
  | [] => []
  | .ok data :: rest => if data.isEmpty then fetchFromApis rest else data
  | .error _ :: rest => fetchFromApis rest

/-- The oracles consumed by one `HistoricalDataManager.get_data` call: what
`_get_local_data` returns for the requested range (the SQLite read; its own
exceptions are caught and yield `[]`, so a plain list is faithful), the per-source
network outcomes, and whether `_save_to_database` succeeds (with the message of the
underlying exception when it does not). -/
structure MgrEnv where
  localData : List Candle
  sources : List (Except PyError (List Candle))
  saveOk : Bool
  saveErrMsg : String

/-- `HistoricalDataManager.get_data`.  `nowTs` is `int(datetime.now().timestamp())`;
`start = now - period`.  The outer `except` wraps any non-`HistoricalDataError`
exception (the `ValueError` from `_parse_period`, the `DatabaseError` from
`_save_to_database`) into `HistoricalDataError(f"获取历史数据失败: {e}", symbol)`. -/
def getData (env : MgrEnv) (symbol interval period : String) (force_refresh : Bool)
    (nowTs : Int) : Except PyError (List Candle) :=
  match parsePeriodDelta period with
  | none =>
    .error (.historicalDataError ("获取历史数据失败: " ++ parsePeriodErrMsg period)
      (some symbol) none)
  | some delta =>
    let start_timestamp := nowTs - delta
    let end_timestamp := nowTs
    if ¬force_refresh ∧ isDataSufficient env.localData start_timestamp end_timestamp interval
    then .ok env.localData
    else
      let api_data := fetchFromApis env.sources
      if ¬api_data.isEmpty then
        if env.saveOk then .ok api_data
        else .error (.historicalDataError ("获取历史数据失败: " ++ env.saveErrMsg)
          (some symbol) none)
      else if ¬env.localData.isEmpty then .ok env.localData
      else .error (.historicalDataError ("无法获取 " ++ symbol ++ " 的历史数据")
        (some symbol) none)

/-- The last `n` elements of a list (the final rolling window `.iloc[-1]` sees). -/
def lastN {α : Type} (n : Nat) (l : List α) : List α := l.drop (l.length - n)

/-- Arithmetic mean of a list of rationals (used for full rolling windows only,
so the empty case never matters). -/
def listMean (l : List ℚ) : ℚ := l.sum / l.length

/-- `Series.diff()` on closes: consecutive differences `c[i+1] - c[i]`.
(The leading NaN of `diff` is immediately replaced by 0 in the RSI code via
`delta.where(delta > 0, 0)`, since `NaN > 0` is false, so it is dropped here.) -/
def diffs (closes : List ℚ) : List ℚ := List.zipWith (fun a b => a - b) (closes.drop 1) closes

/-- `Series.ewm(span=span).mean()` with pandas defaults (`adjust=True`):
`y_t = Σ_{i≤t} w^i x_{t-i} / Σ_{i≤t} w^i` with `w = 1 - 2/(span+1) = (span-1)/(span+1)`,
computed by the running recurrences `num_t = w·num_{t-1} + x_t`, `den_t = w·den_{t-1} + 1`. -/
def ewmMeanAux (w : ℚ) : List ℚ → ℚ → ℚ → List ℚ
  | [], _, _ => []
  | x :: xs, num, den =>
    let num1 := w * num + x
    let den1 := w * den + 1
    (num1 / den1) :: ewmMeanAux w xs num1 den1

/-- `Series.ewm(span=span).mean()`, elementwise. -/
def ewmMean (span : ℚ) (xs : List ℚ) : List ℚ :=
  ewmMeanAux ((span - 1) / (span + 1)) xs 0 0

/-- `TechnicalAnalyzer.default_params` merged with any `kwargs` overrides
(`analyze` is only ever verified with the defaults here, but the calculation
functions take the parameter record like the source takes `params`). -/
structure Params where
  rsi_period : Nat
  macd_fast : Nat
  macd_slow : Nat
  macd_signal : Nat
  bb_period : Nat
  bb_std : ℚ
  sma_periods : List Nat
  ema_periods : List Nat
  stoch_k : Nat
  stoch_d : Nat
  williams_period : Nat
  cci_period : Nat
  momentum_period : Nat
deriving DecidableEq, Repr

/-- The `default_params` dict of `TechnicalAnalyzer.__init__`. -/
def defaultParams : Params :=
  ⟨14, 12, 26, 9, 20, 2, [20, 50], [12, 26], 14, 3, 14, 20, 10⟩

/-- `IndicatorType`, in the iteration order of `supported_indicators`. -/
inductive IndicatorType where
  | rsi
  | macd
  | bollinger_bands
  | sma
  | ema
  | stochastic
  | williams_r
  | cci
  | momentum
deriving DecidableEq, Repr

/-- `list(supported_indicators.keys())` — dict insertion order. -/
def allIndicators : List IndicatorType :=
  [.rsi, .macd, .bollinger_bands, .sma, .ema, .stochastic, .williams_r, .cci, .momentum]

/-- The result of one `_calculate_*` call: a scalar float or a dict of floats. -/
inductive IndicatorValue where
  | float (x : PyFloat)
  | dict (d : List (String × PyFloat))
deriving DecidableEq, Repr

/-- `TechnicalAnalyzer._calculate_rsi` over the close column.
`gain/loss` and `100 - 100/(1+rs)` go through float semantics: an all-zero window
gives `rs = 0/0 = NaN` and hence a NaN RSI. -/
def calculateRsi (closes : List ℚ) (params : Params) : Except PyError IndicatorValue :=
  let period := params.rsi_period
  if closes.length < period + 1 then
    .error (.technicalAnalysisError
      ("RSI计算需要至少" ++ toString (period + 1) ++ "个数据点") none)
  else
    let delta := diffs closes
    let gain := listMean (lastN period (delta.map (fun d => if 0 < d then d else 0)))
    let loss := listMean (lastN period (delta.map (fun d => if d < 0 then -d else 0)))
    let rs := PyFloat.div (.val gain) (.val loss)
    .ok (.float (safe_float
      (PyFloat.sub (.val 100) (PyFloat.div (.val 100) (PyFloat.add (.val 1) rs)))))

/-- `TechnicalAnalyzer._calculate_macd`: EMA difference line, its EMA signal line,
and the histogram, each reported at the last position. -/
def calculateMacd (closes : List ℚ) (params : Params) : Except PyError IndicatorValue :=
  let fast_period := params.macd_fast
  let slow_period := params.macd_slow
  let signal_period := params.macd_signal
  if closes.length < slow_period + signal_period then
    .error (.technicalAnalysisError
      ("MACD计算需要至少" ++ toString (slow_period + signal_period) ++ "个数据点") none)
  else
    let ema_fast := ewmMean (fast_period : ℚ) closes
    let ema_slow := ewmMean (slow_period : ℚ) closes
    let macd_line := List.zipWith (fun a b => a - b) ema_fast ema_slow
    let signal_line := ewmMean (signal_period : ℚ) macd_line
    let histogram := List.zipWith (fun a b => a - b) macd_line signal_line
    .ok (.dict
      [("macd", safe_float (.val (macd_line.getLastD 0))),
       ("signal", safe_float (.val (signal_line.getLastD 0))),
       ("histogram", safe_float (.val (histogram.getLastD 0)))])

/-- Sample variance (`ddof=1`, the pandas `rolling().std()` default) of a window. -/
def sampleVariance (window : List ℚ) : ℚ :=
  let m := listMean window
  (window.map (fun x => (x - m) ^ 2)).sum / (window.length - 1 : ℚ)

/-- `TechnicalAnalyzer._calculate_bollinger_bands`.  `rolling().std()` is the square
root of the sample variance; the square root of a rational is irrational in general,
so the interpretation `sqrtQ` is a parameter of the embedding (no verified claim
depends on the band values).  The bandwidth divides by the middle band under float
semantics. -/
def calculateBollingerBands (sqrtQ : ℚ → ℚ) (closes : List ℚ) (params : Params) :
    Except PyError IndicatorValue :=
  let period := params.bb_period
  let std_dev := params.bb_std
  if closes.length < period then
    .error (.technicalAnalysisError
      ("布林带计算需要至少" ++ toString period ++ "个数据点") none)
  else
    let window := lastN period closes
    let sma := listMean window
    let std := sqrtQ (sampleVariance window)
    let upper_band := sma + std * std_dev
    let lower_band := sma - std * std_dev
    .ok (.dict
      [("upper", safe_float (.val upper_band)),
       ("middle", safe_float (.val sma)),
       ("lower", safe_float (.val lower_band)),
       ("bandwidth", safe_float
         (PyFloat.mul (PyFloat.div (.val (upper_band - lower_band)) (.val sma)) (.val 100)))])

/-- The inner loop of `_calculate_sma`: for each configured period, if the series has
at least that many points, add `sma_{period}` to the result dict; otherwise skip it. -/
def smaLoop (closes : List ℚ) (n : Nat) : List Nat → List (String × PyFloat)
  | [] => []
  | p :: ps =>
    if n ≥ p then
      ("sma_" ++ toString p, safe_float (.val (listMean (lastN p closes)))) :: smaLoop closes n ps
    else smaLoop closes n ps

/-- `TechnicalAnalyzer._calculate_sma` — never raises. -/
def calculateSma (closes : List ℚ) (params : Params) : Except PyError IndicatorValue :=
  .ok (.dict (smaLoop closes closes.length params.sma_periods))

/-- The inner loop of `_calculate_ema`, mirroring `smaLoop` with `ewm` means. -/
def emaLoop (closes : List ℚ) (n : Nat) : List Nat → List (String × PyFloat)
  | [] => []
  | p :: ps =>
    if n ≥ p then
      ("ema_" ++ toString p, safe_float (.val ((ewmMean (p : ℚ) closes).getLastD 0)))
        :: emaLoop closes n ps
    else emaLoop closes n ps

/-- `TechnicalAnalyzer._calculate_ema` — never raises. -/
def calculateEma (closes : List ℚ) (params : Params) : Except PyError IndicatorValue :=
  .ok (.dict (emaLoop closes closes.length params.ema_periods))

/-- `%K` at the position `off` places before the end of the frame
(`100 * (close - lowestLow(k)) / (highestHigh(k) - lowestLow(k))`, float division). -/
def stochKAt (k : Nat) (highs lows closes : List ℚ) (off : Nat) : PyFloat :=
  let n := closes.length
  let hwin := lastN k (highs.take (n - off))
  let lwin := lastN k (lows.take (n - off))
  let hh := hwin.foldl max (hwin.headD 0)
  let ll := lwin.foldl min (lwin.headD 0)
  let c := (closes.take (n - off)).getLastD 0
  PyFloat.mul (.val 100) (PyFloat.div (.val (c - ll)) (.val (hh - ll)))

/-- `TechnicalAnalyzer._calculate_stochastic`: `%K` over the k-window, `%D` the
3-period rolling mean of `%K` (a mean over PyFloats, so a NaN `%K` propagates,
as the pandas rolling mean over a window containing NaN does). -/
def calculateStochastic (highs lows closes : List ℚ) (params : Params) :
    Except PyError IndicatorValue :=
  let k_period := params.stoch_k
  let d_period := params.stoch_d
  if closes.length < k_period + d_period then
    .error (.technicalAnalysisError
      ("随机指标计算需要至少" ++ toString (k_period + d_period) ++ "个数据点") none)
  else
    let k0 := stochKAt k_period highs lows closes 0
    let k1 := stochKAt k_period highs lows closes 1
    let k2 := stochKAt k_period highs lows closes 2
    let d := PyFloat.div (PyFloat.add (PyFloat.add k2 k1) k0) (.val (d_period : ℚ))
    .ok (.dict [("k", safe_float k0), ("d", safe_float d)])

/-- `TechnicalAnalyzer._calculate_williams_r`:
`-100 * (highestHigh - close) / (highestHigh - lowestLow)` at the last position. -/
def calculateWilliamsR (highs lows closes : List ℚ) (params : Params) :
    Except PyError IndicatorValue :=
  let period := params.williams_period
  if closes.length < period then
    .error (.technicalAnalysisError
      ("威廉指标计算需要至少" ++ toString period ++ "个数据点") none)
  else
    let hwin := lastN period highs
    let lwin := lastN period lows
    let hh := hwin.foldl max (hwin.headD 0)
    let ll := lwin.foldl min (lwin.headD 0)
    let c := closes.getLastD 0
    .ok (.float (safe_float
      (PyFloat.mul (.val (-100)) (PyFloat.div (.val (hh - c)) (.val (hh - ll))))))

/-- `TechnicalAnalyzer._calculate_cci`: typical price `(H+L+C)/3`, its window SMA and
mean absolute deviation, `CCI = (TP - SMA) / (0.015 * meanDev)` under float division. -/
def calculateCci (highs lows closes : List ℚ) (params : Params) :
    Except PyError IndicatorValue :=
  let period := params.cci_period
  if closes.length < period then
    .error (.technicalAnalysisError
      ("CCI计算需要至少" ++ toString period ++ "个数据点") none)
  else
    let tps := List.zipWith (fun h lc => (h + lc.1 + lc.2) / 3) highs (List.zip lows closes)
    let window := lastN period tps
    let sma_tp := listMean window
    let mean_deviation := listMean (window.map (fun x => |x - listMean window|))
    let tp_last := tps.getLastD 0
    .ok (.float (safe_float
      (PyFloat.div (.val (tp_last - sma_tp)) (.val ((15 / 1000) * mean_deviation)))))

/-- `TechnicalAnalyzer._calculate_momentum`:
`close / close.shift(period) * 100` at the last position (float division). -/
def calculateMomentum (closes : List ℚ) (params : Params) : Except PyError IndicatorValue :=
  let period := params.momentum_period
  if closes.length < period + 1 then
    .error (.technicalAnalysisError
      ("动量指标计算需要至少" ++ toString (period + 1) ++ "个数据点") none)
  else
    let c_last := closes.getLastD 0
    let c_prev := (closes.take (closes.length - period)).getLastD 0
    .ok (.float (safe_float
      (PyFloat.mul (PyFloat.div (.val c_last) (.val c_prev)) (.val 100))))

/-- Dispatch table `supported_indicators`: run one indicator calculation over the frame. -/
def calcIndicator (sqrtQ : ℚ → ℚ) (df : List Candle) (params : Params) :
    IndicatorType → Except PyError IndicatorValue
  | .rsi => calculateRsi (df.map Candle.close_price) params
  | .macd => calculateMacd (df.map Candle.close_price) params
  | .bollinger_bands => calculateBollingerBands sqrtQ (df.map Candle.close_price) params
  | .sma => calculateSma (df.map Candle.close_price) params
  | .ema => calculateEma (df.map Candle.close_price) params
  | .stochastic =>
    calculateStochastic (df.map Candle.high_price) (df.map Candle.low_price)
      (df.map Candle.close_price) params
  | .williams_r =>
    calculateWilliamsR (df.map Candle.high_price) (df.map Candle.low_price)
      (df.map Candle.close_price) params
  | .cci =>
    calculateCci (df.map Candle.high_price) (df.map Candle.low_price)
      (df.map Candle.close_price) params
  | .momentum => calculateMomentum (df.map Candle.close_price) params

/-- The `TechnicalIndicators` dataclass (derived signals and metadata fields;
`timestamp` and `calculation_time_ms` are wall-clock metadata, outside the embedding). -/
structure TechnicalIndicators where
  symbol : String
  timeframe : String
  rsi : Option PyFloat
  macd : Option (List (String × PyFloat))
  bollinger_bands : Option (List (String × PyFloat))
  sma_20 : Option PyFloat
  sma_50 : Option PyFloat
  ema_12 : Option PyFloat
  ema_26 : Option PyFloat
  stochastic : Option (List (String × PyFloat))
  williams_r : Option PyFloat
  cci : Option PyFloat
  momentum : Option PyFloat
  volume_sma : Option PyFloat
  data_points_used : Nat
deriving DecidableEq, Repr

/-- The freshly created result object in `analyze` (all indicator fields default `None`,
`data_points_used=len(df)`). -/
def initResult (symbol timeframe : String) (n : Nat) : TechnicalIndicators :=
  ⟨symbol, timeframe, none, none, none, none, none, none, none, none, none, none, none,
   none, n⟩

/-- `TechnicalIndicators.get_signals`, building the signal dict in insertion order:
RSI thresholds, the MACD histogram sign (guarded by `self.macd and 'histogram' in
self.macd`), and the Bollinger placeholder `'neutral'` (guarded by truthiness of the
dict). -/
def get_signals (r : TechnicalIndicators) : List (String × String) :=
  (match r.rsi with
   | none => []
   | some v =>
     [("rsi", if PyFloat.gt v (.val 70) then "overbought"
              else if PyFloat.lt v (.val 30) then "oversold" else "neutral")])
  ++ (match r.macd with
      | none => []
      | some d =>
        if d.isEmpty then []
        else
          match d.lookup "histogram" with
          | none => []
          | some h => [("macd", if PyFloat.gt h (.val 0) then "bullish" else "bearish")])
  ++ (match r.bollinger_bands with
      | none => []
      | some d => if d.isEmpty then [] else [("bollinger", "neutral")])

/-- `TechnicalAnalyzer._set_indicator_result`.  The wildcard covers the
`isinstance` mismatches, which leave the result object untouched (they cannot arise
from `calcIndicator`, whose shapes are fixed per indicator). -/
def setIndicatorResult (r : TechnicalIndicators) :
    IndicatorType → IndicatorValue → TechnicalIndicators
  | .rsi, .float x => { r with rsi := some x }
  | .macd, .dict d => { r with macd := some d }
  | .bollinger_bands, .dict d => { r with bollinger_bands := some d }
  | .sma, .dict d => { r with sma_20 := d.lookup "sma_20", sma_50 := d.lookup "sma_50" }
  | .ema, .dict d => { r with ema_12 := d.lookup "ema_12", ema_26 := d.lookup "ema_26" }
  | .stochastic, .dict d => { r with stochastic := some d }
  | .williams_r, .float x => { r with williams_r := some x }
  | .cci, .float x => { r with cci := some x }
  | .momentum, .float x => { r with momentum := some x }
  | _, _ => r

/-- One iteration of the indicator loop in `analyze`: a per-indicator failure is
caught (`except Exception ... continue`), a success is stored. -/
def applyIndicator (sqrtQ : ℚ → ℚ) (df : List Candle) (params : Params)
    (r : TechnicalIndicators) (i : IndicatorType) : TechnicalIndicators :=
  match calcIndicator sqrtQ df params i with
  | .ok v => setIndicatorResult r i v
  | .error _ => r

/-- The indicator loop of `analyze` over a prepared frame. -/
def computeIndicators (sqrtQ : ℚ → ℚ) (df : List Candle) (params : Params)
    (symbol timeframe : String) (inds : List IndicatorType) : TechnicalIndicators :=
  inds.foldl (applyIndicator sqrtQ df params) (initResult symbol timeframe df.length)

/-- `TechnicalAnalyzer._validate_parameters` (an empty symbol is falsy; `isinstance`
checks are vacuous in the typed embedding). -/
def validateParameters (symbol timeframe period : String) : Except PyError Unit :=
  if symbol = "" then .error (.validationError "币种代码不能为空" "symbol")
  else if timeframe ∉ ["1m", "5m", "15m", "1h", "4h", "1d", "1w"] then
    .error (.validationError ("不支持的时间框架: " ++ timeframe) "timeframe")
  else if period ∉ ["1d", "7d", "30d", "90d"] then
    .error (.validationError ("不支持的历史数据周期: " ++ period) "period")
  else .ok ()

/-- The body of the `for i in range(count)` loop of `_generate_mock_data`:
`rem` candles left to emit, `i` the current index, `base` the running price.
Each iteration consumes five `random.uniform` draws in call order
(change, high factor, low factor, open factor, volume); `u` is the seeded stream. -/
def mockGo (u : Nat → ℚ) (current_time : Int) : Nat → Nat → ℚ → List Candle
  | 0, _, _ => []
  | rem + 1, i, base =>
    let change := u (5 * i)
    let base1 := base * (1 + change)
    { timestamp := current_time + i * 3600
      open_price := base1 * u (5 * i + 3)
      high_price := base1 * u (5 * i + 1)
      low_price := base1 * u (5 * i + 2)
      close_price := base1
      volume := u (5 * i + 4) } :: mockGo u current_time rem (i + 1) base1

/-- `TechnicalAnalyzer._generate_mock_data`: base price from the current-price hint
when it is truthy and positive, else 50000 for BTC / 3000 otherwise; candles start at
`now - count*3600`, hourly; the pseudo-random stream is seeded with
`hash(symbol) % 1000` (Python `%` on a positive modulus is non-negative). -/
def generateMockData (randGen : Nat → Nat → ℚ) (pyHash : String → Int) (nowTs : Int)
    (symbol : String) (count : Nat) (current_price : Option ℚ) : List Candle :=
  let base_price :=
    match current_price with
    | some p => if p ≠ 0 ∧ 0 < p then p else if pyUpper symbol = "BTC" then 50000 else 3000
    | none => if pyUpper symbol = "BTC" then 50000 else 3000
  let seed := ((pyHash symbol).emod 1000).toNat
  mockGo (randGen seed) (nowTs - (count : Int) * 3600) count 0 base_price

/-- The environment of one `TechnicalAnalyzer.analyze` call: the historical-data
manager's outcome for this request (`none` = no manager configured), the seeded
pseudo-random oracle, Python's string hash, the clock, and the square-root
interpretation for the Bollinger standard deviation. -/
structure TAEnv where
  mgr : Option (Except PyError (List Candle))
  randGen : Nat → Nat → ℚ
  pyHash : String → Int
  nowTs : Int
  sqrtQ : ℚ → ℚ

/-- `TechnicalAnalyzer._get_historical_data`: no manager → mock data; a manager
exception of any kind is caught and replaced by 100 mock candles. -/
def getHistoricalDataTA (env : TAEnv) (symbol : String) (current_price : Option ℚ) :
    List Candle :=
  match env.mgr with
  | none => generateMockData env.randGen env.pyHash env.nowTs symbol 100 current_price
  | some (.ok data) => data
  | some (.error _) => generateMockData env.randGen env.pyHash env.nowTs symbol 100 current_price

/-- `TechnicalAnalyzer._prepare_dataframe`: the required columns always exist and the
values are numeric in the typed embedding, so the observable effect is the stable
ascending sort by timestamp (`df.sort_values('timestamp')`); with exact rationals
there are no NaNs to forward-fill. -/
def prepareDataframe (historical_data : List Candle) : List Candle :=
  List.insertionSort (fun a b => a.timestamp ≤ b.timestamp) historical_data

/-- `TechnicalAnalyzer._resolve_indicators`: `None` means all indicators, in
`supported_indicators` order; an explicit list is taken as given (string resolution
is the identity on the enum in the typed embedding). -/
def resolveIndicators : Option (List IndicatorType) → List IndicatorType
  | none => allIndicators
  | some l => l

/-- `TechnicalAnalyzer.analyze` (with the default parameters, no kwargs overrides).
Validation first; then the historical data (manager or mock fallback); the overall
≥ 20 candles check; the frame preparation; then the indicator loop in which each
indicator's failure is caught individually. -/
def analyze (env : TAEnv) (symbol : String) (indicators : Option (List IndicatorType))
    (timeframe period : String) (current_price : Option ℚ) :
    Except PyError TechnicalIndicators :=
  match validateParameters symbol timeframe period with
  | .error e => .error e
  | .ok _ =>
    let historical_data := getHistoricalDataTA env symbol current_price
    if historical_data.length < 20 then
      .error (.technicalAnalysisError
        ("历史数据不足，需要至少20个数据点，当前只有" ++ toString historical_data.length ++ "个")
        (some symbol))
    else
      let df := prepareDataframe historical_data
      let inds := resolveIndicators indicators
      .ok (computeIndicators env.sqrtQ df defaultParams symbol timeframe inds)

/-- The slice of a result object owned by one indicator
(what `_set_indicator_result` writes for it). -/
inductive SlotVal where
  | fv (x : Option PyFloat)
  | dv (x : Option (List (String × PyFloat)))
  | pv (a b : Option PyFloat)
deriving DecidableEq, Repr

/-- Read one indicator's slice of the result object. -/
def resultSlot (r : TechnicalIndicators) : IndicatorType → SlotVal
  | .rsi => .fv r.rsi
  | .macd => .dv r.macd
  | .bollinger_bands => .dv r.bollinger_bands
  | .sma => .pv r.sma_20 r.sma_50
  | .ema => .pv r.ema_12 r.ema_26
  | .stochastic => .dv r.stochastic
  | .williams_r => .fv r.williams_r
  | .cci => .fv r.cci
  | .momentum => .fv r.momentum

/-- The slice value `_set_indicator_result` stores for a successful calculation
(junk `fv none` on shape mismatches, which `calcIndicator` never produces). -/
def encodeSlot : IndicatorType → IndicatorValue → SlotVal
  | .rsi, .float x => .fv (some x)
  | .macd, .dict d => .dv (some d)
  | .bollinger_bands, .dict d => .dv (some d)
  | .sma, .dict d => .pv (d.lookup "sma_20") (d.lookup "sma_50")
  | .ema, .dict d => .pv (d.lookup "ema_12") (d.lookup "ema_26")
  | .stochastic, .dict d => .dv (some d)
  | .williams_r, .float x => .fv (some x)
  | .cci, .float x => .fv (some x)
  | .momentum, .float x => .fv (some x)
  | _, _ => .fv none

/-- The untouched ("not computed") slice of a fresh result object. -/
def emptySlot : IndicatorType → SlotVal
  | .rsi => .fv none
  | .macd => .dv none
  | .bollinger_bands => .dv none
  | .sma => .pv none none
  | .ema => .pv none none
  | .stochastic => .dv none
  | .williams_r => .fv none
  | .cci => .fv none
  | .momentum => .fv none

/-- An arbitrary concrete square-root interpretation for witnesses (no verified
property depends on Bollinger band values). -/
def sqrt0 : ℚ → ℚ := fun q => q

/-- The 35-point strictly upward-monotonic close series 100..134. -/
def closes35 : List ℚ :=
  [100, 101, 102, 103, 104, 105, 106, 107, 108, 109,
   110, 111, 112, 113, 114, 115, 116, 117, 118, 119,
   120, 121, 122, 123, 124, 125, 126, 127, 128, 129,
   130, 131, 132, 133, 134]

/-- The 20-point strictly upward-monotonic close series 100..119. -/
def closes20 : List ℚ :=
  [100, 101, 102, 103, 104, 105, 106, 107, 108, 109,
   110, 111, 112, 113, 114, 115, 116, 117, 118, 119]

/-- Build a synthetic candle frame from a close series (hourly, flat candles). -/
def dfOfCloses (closes : List ℚ) : List Candle :=
  closes.enum.map (fun p => ⟨(p.1 : Int) * 3600, p.2, p.2, p.2, p.2, 1⟩)

/-- Concrete 35-candle frame over `closes35`. -/
def df35 : List Candle := dfOfCloses closes35

/-- Concrete 20-candle frame over `closes20`. -/
def df20 : List Candle := dfOfCloses closes20

/-- Analyzer environment whose manager returns `df35`. -/
def env35 : TAEnv :=
  ⟨some (.ok df35), fun _ _ => 0, fun _ => 0, 1700000000, sqrt0⟩

/-- Analyzer environment whose manager returns `df20`. -/
def env20 : TAEnv :=
  ⟨some (.ok df20), fun _ _ => 0, fun _ => 0, 1700000000, sqrt0⟩

/-- Analyzer environment whose manager raises an `APIError`. -/
def envErr : TAEnv :=
  ⟨some (.error (.apiError "网络请求失败")), fun _ _ => 0, fun _ => 0, 1700000000, sqrt0⟩

/-- A single placeholder candle (sufficiency only inspects the series length). -/
def candle0 : Candle := ⟨0, 1, 1, 1, 1, 1⟩

/-- Manager environment with nothing cached and no usable sources. -/
def mgrEnv0 : MgrEnv := ⟨[], [.ok [], .error (.apiError "Binance API错误: 500"), .ok []], true, ""⟩

/-- Manager environment with one stale cached candle and no usable sources. -/
def mgrEnv1 : MgrEnv :=
  ⟨[candle0], [.ok [], .error (.apiError "Binance API错误: 500"), .ok []], true, ""⟩

/-- A data-source outcome that contributes nothing to the fallback loop:
either the source raised, or it returned an empty series. -/
def sourceEmptyOrFailed : Except PyError (List Candle) → Bool
  | .error _ => true
  | .ok d => d.isEmpty

/-- The explicit unsupported-symbol response of the CoinGecko source (for symbol ZZZ). -/
def unsupportedSymbolErr : PyError :=
  .historicalDataError "CoinGecko不支持币种: ZZZ" (some "ZZZ") (some "CoinGecko")

/-- A callable whose first attempt fails with the unsupported-symbol response and
whose second attempt succeeds — the probe distinguishing fail-fast from retry. -/
def retryProbe : Nat → Except PyError (List Candle) :=
  fun k => if k = 0 then .error unsupportedSymbolErr else .ok [candle0]

/-- A result object whose only computed indicator is a (non-empty) Bollinger dict. -/
def rBB : TechnicalIndicators :=
  { initResult "BTC" "1h" 0 with bollinger_bands := some [("upper", .val 1)] }

/-- Whether a float value is an actual number within `[a, b]` (NaN and ±inf are not). -/
def pyInRange (x : PyFloat) (a b : ℚ) : Bool :=
  match x with
  | .val q => decide (a ≤ q ∧ q ≤ b)
  | _ => false

theorem parsePeriodDelta_eq_none {period : String}
    (h : period ∉ ["1d", "7d", "30d", "90d"]) : parsePeriodDelta period = none := by
  simp only [List.mem_cons, List.not_mem_nil, or_false] at h
  push_neg at h
  obtain ⟨h1, h2, h3, h4⟩ := h
  simp [parsePeriodDelta, h1, h2, h3, h4]

/-- C3 (amended): for every period string outside `{1d,7d,30d,90d}`, `get_data` fails
immediately — independently of the cache, the sources and the save oracle — but with a
`HistoricalDataError` wrapping the `ValueError` from `_parse_period` (carrying the
symbol), not with a `ValidationError`. -/
theorem getData_bad_period_raises_historical_error
    (env : MgrEnv) (symbol interval period : String) (force_refresh : Bool) (nowTs : Int)
    (h : period ∉ ["1d", "7d", "30d", "90d"]) :
    getData env symbol interval period force_refresh nowTs =
      .error (.historicalDataError ("获取历史数据失败: " ++ parsePeriodErrMsg period)
        (some symbol) none) ∧
    isValidationErrorResult (getData env symbol interval period force_refresh nowTs) = false := by
  have hp := parsePeriodDelta_eq_none h
  refine ⟨by simp [getData, hp], ?_⟩
  simp [getData, hp, isValidationErrorResult, PyError.isValidationError]

/-- Witness for C3's amended theorem at period `"2w"`. -/
theorem getData_bad_period_witness :
    ("2w" ∉ ["1d", "7d", "30d", "90d"]) ∧
    (getData mgrEnv0 "BTC" "1h" "2w" false 0 =
      .error (.historicalDataError ("获取历史数据失败: " ++ parsePeriodErrMsg "2w")
        (some "BTC") none) ∧
     isValidationErrorResult (getData mgrEnv0 "BTC" "1h" "2w" false 0) = false) :=
  ⟨by decide,
   getData_bad_period_raises_historical_error mgrEnv0 "BTC" "1h" "2w" false 0 (by decide)⟩

/-- C3 counterexample: with the unsupported period `"2w"`, `get_data` does NOT raise a
`ValidationError` (as the claim states); it raises the wrapped `HistoricalDataError`. -/
theorem getData_bad_period_not_validation_error :
    isValidationErrorResult (getData mgrEnv0 "BTC" "1h" "2w" false 0) = false ∧
    getData mgrEnv0 "BTC" "1h" "2w" false 0 =
      .error (.historicalDataError "获取历史数据失败: 不支持的时间周期: 2w" (some "BTC") none) := by
  constructor <;> rfl

/-- C4 (amended): the sufficiency check uses Python floor division for
`expected = (end - start) // intervalSeconds` and additionally requires the series to
be non-empty; given that, it returns true iff `len ≥ 0.8 × expected`; in particular
(expected = 10) an 8-point series is sufficient and a 7-point series is not. -/
theorem isDataSufficient_floor_and_nonempty :
    (∀ (data : List Candle) (s e : Int) (iv : String),
      isDataSufficient data s e iv =
        (!data.isEmpty &&
          decide ((data.length : ℚ) ≥
            (((e - s).fdiv (intervalToSeconds iv) : Int) : ℚ) * (8 / 10)))) ∧
    isDataSufficient (List.replicate 8 candle0) 0 36000 "1h" = true ∧
    isDataSufficient (List.replicate 7 candle0) 0 36000 "1h" = false := by
  have hf : ((36000 : Int) - 0).fdiv (3600 : Int) = 10 := rfl
  refine ⟨fun data s e iv => ?_, ?_, ?_⟩
  · by_cases h : data.isEmpty <;> simp [isDataSufficient, h]
  · simp [isDataSufficient, intervalToSeconds, hf]
    norm_num
  · simp [isDataSufficient, intervalToSeconds, hf]
    norm_num

/-- C4 counterexample: on an empty series over an empty range the code returns false
(the `if not data` guard), while the spec's formula (`expected = 0`, `len = 0 ≥ 0`)
returns true. -/
theorem isDataSufficient_spec_mismatch :
    isDataSufficient [] 0 0 "1h" = false ∧ isSufficientSpec [] 0 0 "1h" = true := by
  constructor
  · rfl
  · simp [isSufficientSpec, intervalToSeconds]

theorem validateParameters_invalid (symbol timeframe period : String)
    (h : timeframe ∉ ["1m", "5m", "15m", "1h", "4h", "1d", "1w"] ∨
         period ∉ ["1d", "7d", "30d", "90d"]) :
    ∃ m f, validateParameters symbol timeframe period = .error (.validationError m f) := by
  by_cases hs : symbol = ""
  · exact ⟨"币种代码不能为空", "symbol", by simp [validateParameters, hs]⟩
  · rcases h with h | h
    · exact ⟨"不支持的时间框架: " ++ timeframe, "timeframe",
        by simp [validateParameters, hs, h]⟩
    · by_cases ht : timeframe ∈ ["1m", "5m", "15m", "1h", "4h", "1d", "1w"]
      · exact ⟨"不支持的历史数据周期: " ++ period, "period",
          by simp [validateParameters, hs, ht, h]⟩
      · exact ⟨"不支持的时间框架: " ++ timeframe, "timeframe",
          by simp [validateParameters, hs, ht]⟩

/-- C7: an `analyze` call with a timeframe outside `{1m,5m,15m,1h,4h,1d,1w}` or a
period outside `{1d,7d,30d,90d}` fails with a `ValidationError`, and its outcome does
not depend on the environment (manager, network, clock, randomness) — no historical
fetch is consulted. -/
theorem analyze_invalid_params_validation_error_no_fetch
    (env env' : TAEnv) (symbol : String) (inds : Option (List IndicatorType))
    (timeframe period : String) (cp cp' : Option ℚ)
    (h : timeframe ∉ ["1m", "5m", "15m", "1h", "4h", "1d", "1w"] ∨
         period ∉ ["1d", "7d", "30d", "90d"]) :
    analyze env symbol inds timeframe period cp = analyze env' symbol inds timeframe period cp' ∧
    isValidationErrorResult (analyze env symbol inds timeframe period cp) = true := by
  obtain ⟨m, f, hv⟩ := validateParameters_invalid symbol timeframe period h
  refine ⟨by simp [analyze, hv], ?_⟩
  simp [analyze, hv, isValidationErrorResult, PyError.isValidationError]

/-- Witness for C7 at timeframe `"2h"`, over two different environments. -/
theorem analyze_invalid_params_witness :
    (("2h" ∉ ["1m", "5m", "15m", "1h", "4h", "1d", "1w"]) ∨
     ("30d" ∉ ["1d", "7d", "30d", "90d"])) ∧
    (analyze env35 "BTC" none "2h" "30d" none = analyze envErr "BTC" none "2h" "30d" none ∧
     isValidationErrorResult (analyze env35 "BTC" none "2h" "30d" none) = true) :=
  ⟨Or.inl (by decide),
   analyze_invalid_params_validation_error_no_fetch env35 envErr "BTC" none "2h" "30d"
     none none (Or.inl (by decide))⟩

/-- C5 (amended): the retry decorator treats every exception uniformly — an explicit
unsupported-symbol/interval response is retried exactly like a transport failure, with
no fail-fast path: with 3 attempts and backoff 2 over base delay `d`, a first-attempt
failure is followed by a retry after sleeping `d`, and three failures exhaust the
attempts with the sleep schedule `[d, 2d]` and re-raise the last exception.  The
daily-only provider (CoinGecko, which is wrapped at base delay 2 instead of 1) raises
its specific unsupported-interval `HistoricalDataError` for any supported symbol and
any interval other than `1d`, before any network interaction. -/
theorem retry_uniform_and_coingecko_interval_guard :
    (∀ (f : Nat → Except PyError (List Candle)) (e0 : PyError) (a : List Candle) (d : ℚ),
      f 0 = .error e0 → f 1 = .ok a →
      retryRun 3 d 2 f = (.ok a, [d])) ∧
    (∀ (f : Nat → Except PyError (List Candle)) (e0 e1 e2 : PyError) (d : ℚ),
      f 0 = .error e0 → f 1 = .error e1 → f 2 = .error e2 →
      retryRun 3 d 2 f = (.error e2, [d, d * 2])) ∧
    (∀ (net : Except PyError (List Candle)) (symbol interval cid : String),
      coin_id_map.lookup (pyUpper symbol) = some cid → interval ≠ "1d" →
      coinGeckoFetch net symbol interval =
        .error (.historicalDataError ("CoinGecko不支持时间间隔: " ++ interval)
          (some symbol) (some "CoinGecko"))) := by
  refine ⟨fun f e0 a d h0 h1 => ?_, fun f e0 e1 e2 d h0 h1 h2 => ?_,
    fun net symbol interval cid hc hi => ?_⟩
  · simp [retryRun, retryRunAux, h0, h1]
  · simp [retryRun, retryRunAux, h0, h1, h2]
  · simp [coinGeckoFetch, hc, hi]

/-- Witness for C5's amended theorem: the unsupported-symbol probe is retried and
succeeds on the second attempt with one 2-second sleep (CoinGecko's base delay);
a permanently failing callable exhausts 3 attempts with sleeps `[2, 4]`; and CoinGecko
rejects the hourly interval for BTC. -/
theorem retry_uniform_witness :
    (retryProbe 0 = .error unsupportedSymbolErr ∧ retryProbe 1 = .ok [candle0] ∧
     retryRun 3 2 2 retryProbe = (.ok [candle0], [2])) ∧
    (retryRun 3 2 2 (fun _ => (.error unsupportedSymbolErr : Except PyError (List Candle))) =
      (.error unsupportedSymbolErr, [2, 2 * 2])) ∧
    (coinGeckoFetch (.ok []) "BTC" "1h" =
      .error (.historicalDataError ("CoinGecko不支持时间间隔: " ++ "1h")
        (some "BTC") (some "CoinGecko"))) :=
  ⟨⟨rfl, rfl,
    retry_uniform_and_coingecko_interval_guard.1 retryProbe unsupportedSymbolErr
      [candle0] 2 rfl rfl⟩,
   retry_uniform_and_coingecko_interval_guard.2.1
     (fun _ => (.error unsupportedSymbolErr : Except PyError (List Candle)))
     unsupportedSymbolErr unsupportedSymbolErr unsupportedSymbolErr 2 rfl rfl rfl,
   retry_uniform_and_coingecko_interval_guard.2.2 (.ok []) "BTC" "1h" "bitcoin"
     rfl (by decide)⟩

/-- C5 counterexample: the claim says an explicit unsupported-symbol response "is
never retried (it fails fast on the first attempt)"; but on a callable whose first
attempt raises exactly CoinGecko's unsupported-symbol error and whose second attempt
succeeds, the retry wrapper returns the second attempt's data (after a backoff sleep)
instead of the fail-fast error. -/
theorem retry_unsupported_symbol_is_retried :
    retryRun 3 1 2 retryProbe = (.ok [candle0], [1]) ∧
    retryRun 3 1 2 retryProbe ≠ (.error unsupportedSymbolErr, []) := by
  have h : retryRun 3 1 2 retryProbe = (.ok [candle0], [1]) := by
    simp [retryRun, retryRunAux, retryProbe]
  exact ⟨h, by simp [h]⟩

theorem fetchFromApis_eq_nil {sources : List (Except PyError (List Candle))}
    (h : ∀ s ∈ sources, sourceEmptyOrFailed s = true) : fetchFromApis sources = [] := by
  induction sources with
  | nil => rfl
  | cons s rest ih =>
    have hs := h s (List.mem_cons_self s rest)
    have hr : ∀ x ∈ rest, sourceEmptyOrFailed x = true :=
      fun x hx => h x (List.mem_cons_of_mem s hx)
    cases s with
    | error e => simpa [fetchFromApis] using ih hr
    | ok d =>
      have hde : d.isEmpty = true := hs
      simp [fetchFromApis, hde, ih hr]

/-- C2: with a valid period, `forceRefresh = false` and insufficient cached data, if
every data source fails or returns an empty series then the fallback loop yields an
empty series (not an error); `get_data` then returns whatever non-empty local data
exists even though it was insufficient; and it raises the `HistoricalDataError`
carrying the symbol exactly when the local data is also empty. -/
theorem getData_empty_network_fallback
    (env : MgrEnv) (symbol interval period : String) (nowTs delta : Int)
    (hd : parsePeriodDelta period = some delta)
    (hsrc : ∀ s ∈ env.sources, sourceEmptyOrFailed s = true)
    (hins : isDataSufficient env.localData (nowTs - delta) nowTs interval = false) :
    fetchFromApis env.sources = [] ∧
    (¬env.localData.isEmpty →
      getData env symbol interval period false nowTs = .ok env.localData) ∧
    (getData env symbol interval period false nowTs =
        .error (.historicalDataError ("无法获取 " ++ symbol ++ " 的历史数据")
          (some symbol) none)
      ↔ env.localData.isEmpty = true) := by
  have hf := fetchFromApis_eq_nil hsrc
  refine ⟨hf, fun hne => by simp [getData, hd, hins, hf, hne], ?_⟩
  constructor
  · intro h
    by_cases hne : env.localData.isEmpty
    · exact hne
    · exfalso
      simp [getData, hd, hins, hf, hne] at h
  · intro he
    simp [getData, hd, hins, hf, he]

/-- Witness for C2: BTC, 1h, 30d, empty cache, three useless sources — the call fails
with the symbol-carrying `HistoricalDataError`. -/
theorem getData_empty_network_fallback_witness :
    (parsePeriodDelta "30d" = some 2592000 ∧
     (∀ s ∈ mgrEnv0.sources, sourceEmptyOrFailed s = true) ∧
     isDataSufficient mgrEnv0.localData (0 - 2592000) 0 "1h" = false) ∧
    (fetchFromApis mgrEnv0.sources = [] ∧
     (¬mgrEnv0.localData.isEmpty →
       getData mgrEnv0 "BTC" "1h" "30d" false 0 = .ok mgrEnv0.localData) ∧
     (getData mgrEnv0 "BTC" "1h" "30d" false 0 =
         .error (.historicalDataError ("无法获取 " ++ "BTC" ++ " 的历史数据")
           (some "BTC") none)
       ↔ mgrEnv0.localData.isEmpty = true)) :=
  ⟨⟨rfl, by decide, rfl⟩,
   getData_empty_network_fallback mgrEnv0 "BTC" "1h" "30d" 0 2592000 rfl (by decide) rfl⟩

theorem resultSlot_initResult (symbol timeframe : String) (n : Nat) (i : IndicatorType) :
    resultSlot (initResult symbol timeframe n) i = emptySlot i := by
  cases i <;> rfl

theorem resultSlot_setIndicatorResult_other (r : TechnicalIndicators) {i j : IndicatorType}
    (v : IndicatorValue) (hne : j ≠ i) :
    resultSlot (setIndicatorResult r j v) i = resultSlot r i := by
  cases v <;> cases i <;> cases j <;> simp_all [setIndicatorResult, resultSlot]

theorem resultSlot_applyIndicator_other (s : ℚ → ℚ) (df : List Candle) (p : Params)
    (r : TechnicalIndicators) {i j : IndicatorType} (hne : j ≠ i) :
    resultSlot (applyIndicator s df p r j) i = resultSlot r i := by
  unfold applyIndicator
  cases calcIndicator s df p j with
  | error e => rfl
  | ok v => exact resultSlot_setIndicatorResult_other r v hne

theorem resultSlot_applyIndicator_self (s : ℚ → ℚ) (df : List Candle) (p : Params)
    (r : TechnicalIndicators) (i : IndicatorType) :
    resultSlot (applyIndicator s df p r i) i =
      (match calcIndicator s df p i with
       | .ok v => encodeSlot i v
       | .error _ => resultSlot r i) := by
  cases i <;>
    simp only [applyIndicator, calcIndicator, calculateRsi, calculateMacd,
      calculateBollingerBands, calculateSma, calculateEma, calculateStochastic,
      calculateWilliamsR, calculateCci, calculateMomentum] <;>
    first
    | (split_ifs <;> simp [setIndicatorResult, resultSlot, encodeSlot])
    | simp [setIndicatorResult, resultSlot, encodeSlot]

theorem resultSlot_fold_not_mem (s : ℚ → ℚ) (df : List Candle) (p : Params)
    {i : IndicatorType} {inds : List IndicatorType} (hni : i ∉ inds)
    (r : TechnicalIndicators) :
    resultSlot (inds.foldl (applyIndicator s df p) r) i = resultSlot r i := by
  induction inds generalizing r with
  | nil => rfl
  | cons j rest ih =>
    rw [List.foldl_cons,
      ih (fun h => hni (List.mem_cons_of_mem j h)),
      resultSlot_applyIndicator_other s df p r
        (fun h => hni (by rw [← h]; exact List.mem_cons_self j rest))]

theorem resultSlot_fold_error (s : ℚ → ℚ) (df : List Candle) (p : Params)
    {i : IndicatorType} {e : PyError} (hc : calcIndicator s df p i = .error e)
    (inds : List IndicatorType) (r : TechnicalIndicators) :
    resultSlot (inds.foldl (applyIndicator s df p) r) i = resultSlot r i := by
  induction inds generalizing r with
  | nil => rfl
  | cons j rest ih =>
    rw [List.foldl_cons, ih]
    by_cases hne : j = i
    · subst hne
      rw [resultSlot_applyIndicator_self, hc]
    · exact resultSlot_applyIndicator_other s df p r hne

theorem resultSlot_fold_ok (s : ℚ → ℚ) (df : List Candle) (p : Params)
    {i : IndicatorType} {v : IndicatorValue} (hc : calcIndicator s df p i = .ok v)
    {inds : List IndicatorType} (hmem : i ∈ inds) (r : TechnicalIndicators) :
    resultSlot (inds.foldl (applyIndicator s df p) r) i = encodeSlot i v := by
  induction inds generalizing r with
  | nil => cases hmem
  | cons j rest ih =>
    rw [List.foldl_cons]
    by_cases hmem2 : i ∈ rest
    · exact ih hmem2 _
    · have hji : j = i := by
        rcases List.mem_cons.mp hmem with h | h
        · exact h.symm
        · exact absurd h hmem2
      subst hji
      rw [resultSlot_fold_not_mem s df p hmem2, resultSlot_applyIndicator_self, hc]

theorem smaLoop_keys (closes : List ℚ) (n : Nat) (ps : List Nat) :
    (smaLoop closes n ps).map Prod.fst =
      (ps.filter (fun q => decide (q ≤ n))).map (fun q => "sma_" ++ toString q) := by
  induction ps with
  | nil => rfl
  | cons q rest ih =>
    by_cases h : q ≤ n <;> simp [smaLoop, h, ih, List.filter_cons]

theorem emaLoop_keys (closes : List ℚ) (n : Nat) (ps : List Nat) :
    (emaLoop closes n ps).map Prod.fst =
      (ps.filter (fun q => decide (q ≤ n))).map (fun q => "ema_" ++ toString q) := by
  induction ps with
  | nil => rfl
  | cons q rest ih =>
    by_cases h : q ≤ n <;> simp [emaLoop, h, ih, List.filter_cons]

/-- C6: in the batch loop, one indicator's failure is isolated — if its calculation
raises, its slice of the result stays "not computed" (`None`), and any sibling
indicator whose calculation succeeds still gets its value stored, regardless of the
other indicators in the batch; moreover SMA and EMA never raise: each configured
period is included exactly when the series has at least that many points, so an
oversized period is silently omitted from the dict rather than being an error. -/
theorem indicator_failures_isolated_and_oversized_periods_omitted
    (s : ℚ → ℚ) (df : List Candle) (p : Params) (symbol timeframe : String)
    (inds : List IndicatorType) (i : IndicatorType) (hmem : i ∈ inds) :
    (∀ e, calcIndicator s df p i = .error e →
      resultSlot (computeIndicators s df p symbol timeframe inds) i = emptySlot i) ∧
    (∀ v, calcIndicator s df p i = .ok v →
      resultSlot (computeIndicators s df p symbol timeframe inds) i = encodeSlot i v) ∧
    (calculateSma (df.map Candle.close_price) p =
      .ok (.dict (smaLoop (df.map Candle.close_price) df.length p.sma_periods)) ∧
     (smaLoop (df.map Candle.close_price) df.length p.sma_periods).map Prod.fst =
      (p.sma_periods.filter (fun q => decide (q ≤ df.length))).map
        (fun q => "sma_" ++ toString q)) ∧
    (calculateEma (df.map Candle.close_price) p =
      .ok (.dict (emaLoop (df.map Candle.close_price) df.length p.ema_periods)) ∧
     (emaLoop (df.map Candle.close_price) df.length p.ema_periods).map Prod.fst =
      (p.ema_periods.filter (fun q => decide (q ≤ df.length))).map
        (fun q => "ema_" ++ toString q)) := by
  refine ⟨fun e hc => ?_, fun v hc => ?_, ⟨?_, smaLoop_keys _ _ _⟩, ⟨?_, emaLoop_keys _ _ _⟩⟩
  · rw [computeIndicators, resultSlot_fold_error s df p hc, resultSlot_initResult]
  · exact resultSlot_fold_ok s df p hc hmem _
  · simp [calculateSma]
  · simp [calculateEma]

/-- Witness for C6: on the 20-candle frame with batch `[RSI, MACD]`, the MACD
calculation raises its insufficient-data error (20 < 35) yet the result object is
still produced with the MACD slice left `None`. -/
theorem indicator_failures_isolated_witness :
    (IndicatorType.macd ∈ [IndicatorType.rsi, IndicatorType.macd]) ∧
    calcIndicator sqrt0 df20 defaultParams .macd =
      .error (.technicalAnalysisError
        ("MACD计算需要至少" ++ toString (26 + 9) ++ "个数据点") none) ∧
    resultSlot (computeIndicators sqrt0 df20 defaultParams "BTC" "1h"
      [IndicatorType.rsi, IndicatorType.macd]) .macd = emptySlot .macd :=
  ⟨by decide, rfl,
   (indicator_failures_isolated_and_oversized_periods_omitted sqrt0 df20 defaultParams
      "BTC" "1h" [IndicatorType.rsi, IndicatorType.macd] .macd (by decide)).1 _ rfl⟩

theorem mockGo_length (u : Nat → ℚ) (t : Int) :
    ∀ (rem i : Nat) (base : ℚ), (mockGo u t rem i base).length = rem := by
  intro rem
  induction rem with
  | zero => intro i base; rfl
  | succ n ih => intro i base; simp [mockGo, ih]

theorem mockGo_timestamp_lb (u : Nat → ℚ) (t : Int) :
    ∀ (rem i : Nat) (base : ℚ) (c : Candle), c ∈ mockGo u t rem i base →
      t + (i : Int) * 3600 ≤ c.timestamp := by
  intro rem
  induction rem with
  | zero => intro i base c hc; cases hc
  | succ n ih =>
    intro i base c hc
    rw [mockGo] at hc
    rcases List.mem_cons.mp hc with rfl | hc
    · simp
    · have h1 := ih (i + 1) _ c hc
      have h2 : t + (i : Int) * 3600 ≤ t + ((i : Nat) + 1 : Int) * 3600 := by
        linarith
      calc t + (i : Int) * 3600 ≤ t + ((i : Nat) + 1 : Int) * 3600 := h2
        _ ≤ c.timestamp := by push_cast at h1 ⊢; linarith

theorem mockGo_sorted (u : Nat → ℚ) (t : Int) :
    ∀ (rem i : Nat) (base : ℚ),
      List.Sorted (fun a b : Candle => a.timestamp ≤ b.timestamp) (mockGo u t rem i base) := by
  intro rem
  induction rem with
  | zero => intro i base; exact List.sorted_nil
  | succ n ih =>
    intro i base
    rw [mockGo]
    refine List.sorted_cons.mpr ⟨fun c hc => ?_, ih (i + 1) _⟩
    have h1 := mockGo_timestamp_lb u t n (i + 1) _ c hc
    show t + (i : Int) * 3600 ≤ c.timestamp
    push_cast at h1 ⊢
    linarith

theorem generateMockData_length (randGen : Nat → Nat → ℚ) (pyHash : String → Int)
    (nowTs : Int) (symbol : String) (count : Nat) (cp : Option ℚ) :
    (generateMockData randGen pyHash nowTs symbol count cp).length = count := by
  unfold generateMockData
  cases cp <;> apply mockGo_length

theorem prepareDataframe_generateMockData (randGen : Nat → Nat → ℚ) (pyHash : String → Int)
    (nowTs : Int) (symbol : String) (count : Nat) (cp : Option ℚ) :
    prepareDataframe (generateMockData randGen pyHash nowTs symbol count cp) =
      generateMockData randGen pyHash nowTs symbol count cp := by
  apply List.Sorted.insertionSort_eq
  unfold generateMockData
  cases cp <;> apply mockGo_sorted

theorem data_points_used_applyIndicator (s : ℚ → ℚ) (df : List Candle) (p : Params)
    (r : TechnicalIndicators) (i : IndicatorType) :
    (applyIndicator s df p r i).data_points_used = r.data_points_used := by
  unfold applyIndicator
  cases calcIndicator s df p i with
  | error e => rfl
  | ok v => cases v <;> cases i <;> simp [setIndicatorResult]

theorem data_points_used_fold (s : ℚ → ℚ) (df : List Candle) (p : Params) :
    ∀ (inds : List IndicatorType) (r : TechnicalIndicators),
      (inds.foldl (applyIndicator s df p) r).data_points_used = r.data_points_used := by
  intro inds
  induction inds with
  | nil => intro r; rfl
  | cons j rest ih =>
    intro r
    rw [List.foldl_cons, ih, data_points_used_applyIndicator]

/-- C1: when the historical-data manager raises *any* exception during `analyze`'s
candle fetch, the error is not propagated: `_get_historical_data` substitutes the 100
pseudo-random mock candles (random walk seeded through `hash(symbol) % 1000`, based at
the current-price hint or the default base price), and `analyze` returns a populated
result whose indicators are all computed over that fabricated series, with
`data_points_used = 100`. -/
theorem analyze_mock_fallback_on_manager_error
    (env : TAEnv) (symbol timeframe period : String) (cp : Option ℚ) (e : PyError)
    (hmgr : env.mgr = some (.error e)) (hs : symbol ≠ "")
    (ht : timeframe ∈ ["1m", "5m", "15m", "1h", "4h", "1d", "1w"])
    (hp : period ∈ ["1d", "7d", "30d", "90d"]) :
    analyze env symbol none timeframe period cp =
      .ok (computeIndicators env.sqrtQ
        (generateMockData env.randGen env.pyHash env.nowTs symbol 100 cp)
        defaultParams symbol timeframe allIndicators) ∧
    (generateMockData env.randGen env.pyHash env.nowTs symbol 100 cp).length = 100 ∧
    (computeIndicators env.sqrtQ
        (generateMockData env.randGen env.pyHash env.nowTs symbol 100 cp)
        defaultParams symbol timeframe allIndicators).data_points_used = 100 := by
  have hv : validateParameters symbol timeframe period = .ok () := by
    simp [validateParameters, hs, ht, hp]
  have hlen := generateMockData_length env.randGen env.pyHash env.nowTs symbol 100 cp
  have hprep := prepareDataframe_generateMockData env.randGen env.pyHash env.nowTs symbol 100 cp
  refine ⟨?_, hlen, ?_⟩
  · simp only [analyze, hv, getHistoricalDataTA, hmgr, hlen, hprep, resolveIndicators]
    norm_num
  · rw [computeIndicators, data_points_used_fold]
    simp [initResult, hlen]

/-- Witness for C1: concrete environment whose manager raises an `APIError`. -/
theorem analyze_mock_fallback_witness :
    (envErr.mgr = some (.error (.apiError "网络请求失败")) ∧ "BTC" ≠ "" ∧
     "1h" ∈ ["1m", "5m", "15m", "1h", "4h", "1d", "1w"] ∧
     "30d" ∈ ["1d", "7d", "30d", "90d"]) ∧
    (analyze envErr "BTC" none "1h" "30d" none =
      .ok (computeIndicators envErr.sqrtQ
        (generateMockData envErr.randGen envErr.pyHash envErr.nowTs "BTC" 100 none)
        defaultParams "BTC" "1h" allIndicators) ∧
     (generateMockData envErr.randGen envErr.pyHash envErr.nowTs "BTC" 100 none).length = 100 ∧
     (computeIndicators envErr.sqrtQ
        (generateMockData envErr.randGen envErr.pyHash envErr.nowTs "BTC" 100 none)
        defaultParams "BTC" "1h" allIndicators).data_points_used = 100) :=
  ⟨⟨rfl, by decide, by decide, by decide⟩,
   analyze_mock_fallback_on_manager_error envErr "BTC" "1h" "30d" none
     (.apiError "网络请求失败") rfl (by decide) (by decide) (by decide)⟩

theorem lookup_append {α β : Type} [BEq α] (k : α) (l1 l2 : List (α × β)) :
    (l1 ++ l2).lookup k = ((l1.lookup k).or (l2.lookup k)) := by
  induction l1 with
  | nil => simp [List.lookup]
  | cons p rest ih =>
    cases p with
    | mk a b =>
      by_cases h : k == a <;> simp [List.lookup, h, ih]


theorem lookup_singleton_key {β : Type} (k a : String) (b : β) :
    ([(a, b)] : List (String × β)).lookup k = if k = a then some b else none := by
  by_cases h : k = a
  · simp [List.lookup, h]
  · have hb : (k == a) = false := beq_eq_false_iff_ne.mpr h
    simp [List.lookup, hb, h]

theorem lookup_rsi_segment (x : Option PyFloat) (k : String) :
    (match x with
     | none => ([] : List (String × String))
     | some v => [("rsi", if PyFloat.gt v (.val 70) then "overbought"
                          else if PyFloat.lt v (.val 30) then "oversold" else "neutral")]).lookup k
    = if k = "rsi" then
        (match x with
         | none => none
         | some v => some (if PyFloat.gt v (.val 70) then "overbought"
                           else if PyFloat.lt v (.val 30) then "oversold" else "neutral"))
      else none := by
  rcases x with _ | v
  · simp [List.lookup]
  · exact lookup_singleton_key k "rsi" _

theorem lookup_macd_segment (x : Option (List (String × PyFloat))) (k : String) :
    (match x with
     | none => ([] : List (String × String))
     | some d =>
       if d.isEmpty then []
       else
         match d.lookup "histogram" with
         | none => []
         | some h => [("macd", if PyFloat.gt h (.val 0) then "bullish" else "bearish")]).lookup k
    = if k = "macd" then
        (match x with
         | none => none
         | some d =>
           if d.isEmpty then none
           else
             match d.lookup "histogram" with
             | none => none
             | some h => some (if PyFloat.gt h (.val 0) then "bullish" else "bearish"))
      else none := by
  rcases x with _ | d
  · simp [List.lookup]
  · by_cases hd : d.isEmpty = true
    · simp only [if_pos hd]
      simp [List.lookup, ite_self]
    · simp only [if_neg hd]
      rcases hlk : d.lookup "histogram" with _ | h <;> simp only [hlk]
      · simp [List.lookup, ite_self]
      · exact lookup_singleton_key k "macd" _

theorem lookup_boll_segment (x : Option (List (String × PyFloat))) (k : String) :
    (match x with
     | none => ([] : List (String × String))
     | some d => if d.isEmpty then [] else [("bollinger", "neutral")]).lookup k
    = if k = "bollinger" then
        (match x with
         | none => none
         | some d => if d.isEmpty then none else some "neutral")
      else none := by
  rcases x with _ | d
  · simp [List.lookup]
  · by_cases hd : d.isEmpty = true
    · simp only [if_pos hd]
      simp [List.lookup, ite_self]
    · simp only [if_neg hd]
      exact lookup_singleton_key k "bollinger" _

/-- C10 (amended): the derived signal map contains exactly: an `rsi` entry when RSI is
present (`overbought` above 70, `oversold` below 30, else `neutral`, with a NaN RSI
falling to `neutral` since float comparisons with NaN are false); a `macd` entry when
the MACD dict is present, non-empty and has a `histogram` key (`bullish` iff the
histogram is > 0, else `bearish`); a `bollinger` entry `neutral` whenever the
Bollinger dict is present and non-empty (the placeholder entry the claim denies); and
no entry for any other key. -/
theorem get_signals_characterization (r : TechnicalIndicators) :
    ((get_signals r).lookup "rsi" =
      (match r.rsi with
       | none => none
       | some v => some (if PyFloat.gt v (.val 70) then "overbought"
                         else if PyFloat.lt v (.val 30) then "oversold" else "neutral"))) ∧
    ((get_signals r).lookup "macd" =
      (match r.macd with
       | none => none
       | some d =>
         if d.isEmpty then none
         else
           match d.lookup "histogram" with
           | none => none
           | some h => some (if PyFloat.gt h (.val 0) then "bullish" else "bearish"))) ∧
    ((get_signals r).lookup "bollinger" =
      (match r.bollinger_bands with
       | none => none
       | some d => if d.isEmpty then none else some "neutral")) ∧
    (∀ k, k ≠ "rsi" → k ≠ "macd" → k ≠ "bollinger" → (get_signals r).lookup k = none) := by
  refine ⟨?_, ?_, ?_, fun k hk1 hk2 hk3 => ?_⟩ <;>
    simp only [get_signals, lookup_append, lookup_rsi_segment, lookup_macd_segment,
      lookup_boll_segment]
  · simp
  · simp
  · simp
  · simp [hk1, hk2, hk3]

/-- Witness for C10's amended theorem, applied to `rBB` at the extraneous key
`"stochastic"` (no entry is derived for it). -/
theorem get_signals_characterization_witness :
    (("stochastic" : String) ≠ "rsi" ∧ ("stochastic" : String) ≠ "macd" ∧
     ("stochastic" : String) ≠ "bollinger") ∧
    (get_signals rBB).lookup "stochastic" = none :=
  ⟨⟨by decide, by decide, by decide⟩,
   (get_signals_characterization rBB).2.2.2 "stochastic" (by decide) (by decide) (by decide)⟩

/-- C10 counterexample: the claim says the signal map contains "no signal entry for
any other indicator, including Bollinger Bands", but on a result whose Bollinger dict
is present (and non-empty) `get_signals` does emit `bollinger → neutral`. -/
theorem get_signals_bollinger_entry_exists :
    (get_signals rBB).lookup "bollinger" = some "neutral" ∧
    get_signals rBB = [("bollinger", "neutral")] := by
  constructor <;> rfl

theorem lastN_map {α β : Type} (f : α → β) (n : Nat) (l : List α) :
    lastN n (l.map f) = (lastN n l).map f := by
  simp [lastN, List.map_drop]

theorem listMean_nonneg {l : List ℚ} (h : ∀ x ∈ l, 0 ≤ x) : 0 ≤ listMean l := by
  unfold listMean
  exact div_nonneg (List.sum_nonneg h) (by positivity)

theorem listMean_pos {l : List ℚ} {x : ℚ} (hmem : x ∈ l) (hx : 0 < x)
    (h : ∀ y ∈ l, 0 ≤ y) : 0 < listMean l := by
  unfold listMean
  apply div_pos (lt_of_lt_of_le hx (List.single_le_sum h x hmem))
  have hne : l ≠ [] := by
    intro he
    rw [he] at hmem
    cases hmem
  exact_mod_cast List.length_pos.mpr hne

/-- C8 (amended): for a close series of at least 35 points whose last 14 consecutive
close-to-close changes are not all zero, the computed RSI is an actual number within
`[0, 100]`.  (When those 14 changes are all zero — e.g. a constant series — the
average gain and loss are both zero, and the pandas computation produces
`rs = 0/0 = NaN` and a NaN RSI, which `safe_float` passes through; see the
counterexample.) -/
theorem rsi_bounded_when_deltas_not_all_zero
    (closes : List ℚ) (hlen : closes.length ≥ 35)
    (hnz : ¬ ∀ d ∈ lastN 14 (diffs closes), d = 0) :
    ∃ q : ℚ, calculateRsi closes defaultParams = .ok (.float (.val q)) ∧
      0 ≤ q ∧ q ≤ 100 := by
  push_neg at hnz
  obtain ⟨d, hdmem, hdnz⟩ := hnz
  have hguard : ¬ closes.length < 14 + 1 := by omega
  have hgnn : ∀ y ∈ (lastN 14 (diffs closes)).map (fun d : ℚ => if 0 < d then d else 0),
      0 ≤ y := by
    intro y hy
    obtain ⟨z, hz, rfl⟩ := List.mem_map.mp hy
    by_cases hzpos : 0 < z
    · rw [if_pos hzpos]
      linarith
    · rw [if_neg hzpos]
  have hlnn : ∀ y ∈ (lastN 14 (diffs closes)).map (fun d : ℚ => if d < 0 then -d else 0),
      0 ≤ y := by
    intro y hy
    obtain ⟨z, hz, rfl⟩ := List.mem_map.mp hy
    by_cases hzneg : z < 0
    · rw [if_pos hzneg]
      linarith
    · rw [if_neg hzneg]
  simp only [calculateRsi, defaultParams]
  rw [if_neg hguard, lastN_map, lastN_map]
  set g := listMean ((lastN 14 (diffs closes)).map (fun d : ℚ => if 0 < d then d else 0))
    with hgdef
  set l := listMean ((lastN 14 (diffs closes)).map (fun d : ℚ => if d < 0 then -d else 0))
    with hldef
  have hg0 : 0 ≤ g := listMean_nonneg hgnn
  have hl0 : 0 ≤ l := listMean_nonneg hlnn
  have hpos : 0 < g ∨ 0 < l := by
    rcases lt_trichotomy d 0 with hd | hd | hd
    · right
      have hmm : -d ∈ (lastN 14 (diffs closes)).map (fun d : ℚ => if d < 0 then -d else 0) := by
        have heq : (if d < 0 then -d else 0) = -d := if_pos hd
        rw [← heq]
        exact List.mem_map_of_mem _ hdmem
      exact listMean_pos hmm (by linarith) hlnn
    · exact absurd hd hdnz
    · left
      have hmm : d ∈ (lastN 14 (diffs closes)).map (fun d : ℚ => if 0 < d then d else 0) := by
        have heq : (if 0 < d then d else 0) = d := if_pos hd
        rw [← heq]
        exact List.mem_map_of_mem _ hdmem
      exact listMean_pos hmm hd hgnn
  by_cases hl : l = 0
  · have hgpos : 0 < g := by
      rcases hpos with h | h
      · exact h
      · exfalso
        rw [hl] at h
        exact lt_irrefl 0 h
    have h1 : PyFloat.div (.val g) (.val 0) = .inf := by
      simp [PyFloat.div, ne_of_gt hgpos, hgpos]
    have h2 : PyFloat.add (.val 1) .inf = .inf := rfl
    have h3 : PyFloat.div (.val 100) .inf = .val 0 := rfl
    have h4 : PyFloat.sub (.val 100) (.val 0) = .val 100 := by
      norm_num [PyFloat.sub]
    refine ⟨100, ?_, by norm_num, by norm_num⟩
    rw [hl, h1, h2, h3, h4]
    rfl
  · have hlpos : 0 < l := lt_of_le_of_ne hl0 (Ne.symm hl)
    have hdivnn : 0 ≤ g / l := div_nonneg hg0 hl0
    have h1r : 0 < 1 + g / l := by linarith
    have h1 : PyFloat.div (.val g) (.val l) = .val (g / l) := by
      simp [PyFloat.div, hl]
    have h2 : PyFloat.add (.val 1) (.val (g / l)) = .val (1 + g / l) := rfl
    have h3 : PyFloat.div (.val 100) (.val (1 + g / l)) = .val (100 / (1 + g / l)) := by
      simp [PyFloat.div, ne_of_gt h1r]
    have h4 : PyFloat.sub (.val 100) (.val (100 / (1 + g / l))) =
        .val (100 - 100 / (1 + g / l)) := rfl
    refine ⟨100 - 100 / (1 + g / l), ?_, ?_, ?_⟩
    · rw [h1, h2, h3, h4]
      rfl
    · have hle : 100 / (1 + g / l) ≤ 100 := by
        rw [div_le_iff₀ h1r]
        nlinarith
      linarith
    · have hpos2 : 0 < 100 / (1 + g / l) := by positivity
      linarith

/-- Witness for C8's amended theorem on the monotone 35-point series. -/
theorem rsi_bounded_witness :
    (closes35.length ≥ 35 ∧ ¬ ∀ d ∈ lastN 14 (diffs closes35), d = 0) ∧
    (∃ q : ℚ, calculateRsi closes35 defaultParams = .ok (.float (.val q)) ∧
      0 ≤ q ∧ q ≤ 100) :=
  ⟨⟨by decide, by norm_num [closes35, diffs, lastN]⟩,
   rsi_bounded_when_deltas_not_all_zero closes35 (by decide)
     (by norm_num [closes35, diffs, lastN])⟩

/-- C8 counterexample: on a constant 35-point close series every rolling gain and loss
is zero, `rs = 0/0` is NaN, and the computed RSI is NaN — not a value in `[0, 100]`. -/
theorem rsi_constant_series_nan :
    calculateRsi
      [100, 100, 100, 100, 100, 100, 100, 100, 100, 100,
       100, 100, 100, 100, 100, 100, 100, 100, 100, 100,
       100, 100, 100, 100, 100, 100, 100, 100, 100, 100,
       100, 100, 100, 100, (100 : ℚ)] defaultParams = .ok (.float .nan) ∧
    (calculateRsi
      [100, 100, 100, 100, 100, 100, 100, 100, 100, 100,
       100, 100, 100, 100, 100, 100, 100, 100, 100, 100,
       100, 100, 100, 100, 100, 100, 100, 100, 100, 100,
       100, 100, 100, 100, (100 : ℚ)] defaultParams).map
      (fun v => match v with
        | .float x => pyInRange x 0 100
        | .dict _ => false) = .ok false := by
  have h : calculateRsi
      [100, 100, 100, 100, 100, 100, 100, 100, 100, 100,
       100, 100, 100, 100, 100, 100, 100, 100, 100, 100,
       100, 100, 100, 100, 100, 100, 100, 100, 100, 100,
       100, 100, 100, 100, (100 : ℚ)] defaultParams = .ok (.float .nan) := by
    norm_num [calculateRsi, defaultParams, diffs, lastN, listMean,
      PyFloat.div, PyFloat.add, PyFloat.sub, safe_float]
  refine ⟨h, ?_⟩
  rw [h]
  rfl

/-- C9 counterexample: analyzing the 20-point upward-monotonic close series 100..119
(requesting MACD) does not yield any MACD result, let alone a positive histogram and a
"bullish" signal: the MACD calculation's own minimum is `slow + signal = 35` points,
so for 20 points it raises, the failure is caught, `macd` stays `None` and no `macd`
signal is derived. -/
theorem macd_20_points_not_computed :
    (analyze env20 "BTC" (some [IndicatorType.macd]) "1h" "30d" none).map
      (fun r => (r.macd, (get_signals r).lookup "macd")) = .ok (none, none) := rfl

/-- C9 (amended): MACD requires at least `slow + signal = 35` points, so the spec's
20-point scenario yields no MACD at all (see the counterexample); on the 35-point
strictly upward-monotonic close series 100..134, analyzing with MACD requested yields
a MACD dict whose histogram is positive and the derived `macd` signal `"bullish"`. -/
theorem macd_35_upward_bullish :
    (analyze env35 "BTC" (some [IndicatorType.macd]) "1h" "30d" none).map
      (fun r =>
        ((get_signals r).lookup "macd",
         match r.macd with
         | some d => PyFloat.gt ((d.lookup "histogram").getD (.val 0)) (.val 0)
         | none => false)) = .ok (some "bullish", true) := by
  have hpos : 0 < ((List.zipWith (fun a b => a - b) (List.zipWith (fun a b => a - b) (ewmMean ((defaultParams.macd_fast : Nat) : ℚ) closes35) (ewmMean ((defaultParams.macd_slow : Nat) : ℚ) closes35)) (ewmMean ((defaultParams.macd_signal : Nat) : ℚ) (List.zipWith (fun a b => a - b) (ewmMean ((defaultParams.macd_fast : Nat) : ℚ) closes35) (ewmMean ((defaultParams.macd_slow : Nat) : ℚ) closes35))))).getLastD 0 := by
    norm_num [closes35, ewmMean, ewmMeanAux, defaultParams]
  have h1 : analyze env35 "BTC" (some [IndicatorType.macd]) "1h" "30d" none =
      .ok (setIndicatorResult (initResult "BTC" "1h" 35) .macd
        (.dict
          [("macd", PyFloat.val ((List.zipWith (fun a b => a - b) (ewmMean ((defaultParams.macd_fast : Nat) : ℚ) closes35) (ewmMean ((defaultParams.macd_slow : Nat) : ℚ) closes35)).getLastD 0)),
           ("signal", PyFloat.val ((ewmMean ((defaultParams.macd_signal : Nat) : ℚ) (List.zipWith (fun a b => a - b) (ewmMean ((defaultParams.macd_fast : Nat) : ℚ) closes35) (ewmMean ((defaultParams.macd_slow : Nat) : ℚ) closes35))).getLastD 0)),
           ("histogram", PyFloat.val (((List.zipWith (fun a b => a - b) (List.zipWith (fun a b => a - b) (ewmMean ((defaultParams.macd_fast : Nat) : ℚ) closes35) (ewmMean ((defaultParams.macd_slow : Nat) : ℚ) closes35)) (ewmMean ((defaultParams.macd_signal : Nat) : ℚ) (List.zipWith (fun a b => a - b) (ewmMean ((defaultParams.macd_fast : Nat) : ℚ) closes35) (ewmMean ((defaultParams.macd_slow : Nat) : ℚ) closes35))))).getLastD 0))])) := rfl
  have hgt : PyFloat.gt (.val (((List.zipWith (fun a b => a - b) (List.zipWith (fun a b => a - b) (ewmMean ((defaultParams.macd_fast : Nat) : ℚ) closes35) (ewmMean ((defaultParams.macd_slow : Nat) : ℚ) closes35)) (ewmMean ((defaultParams.macd_signal : Nat) : ℚ) (List.zipWith (fun a b => a - b) (ewmMean ((defaultParams.macd_fast : Nat) : ℚ) closes35) (ewmMean ((defaultParams.macd_slow : Nat) : ℚ) closes35))))).getLastD 0)) (.val 0) = true := by
    simp only [PyFloat.gt, decide_eq_true_eq]
    exact hpos
  rw [h1]
  have e1 : (("macd" == "macd") : Bool) = true := rfl
  have e2 : (("histogram" == "macd") : Bool) = false := rfl
  have e3 : (("histogram" == "signal") : Bool) = false := rfl
  have e4 : (("histogram" == "histogram") : Bool) = true := rfl
  simp only [Except.map, setIndicatorResult, initResult, get_signals, List.isEmpty,
    List.lookup, e1, e2, e3, e4, Option.getD, hgt, if_true]
